import Mathlib

/-!
Verification of the WebSocket relay server (`server.py`).

The file shallowly embeds the server's core: the hostname extraction done by
Python's `urllib.parse.urlparse(...).hostname`, the credential resolution of
`generate_access_token`, the handshake validation of `websocket_handler`, and
the bidirectional relay of `proxy_bidirectional`.  Effects that the claims
observe (the close code/reason of a rejection, whether the credential provider
was invoked, whether an outbound `ws_connect` was attempted, the process
environment) are made explicit in the result types.
-/

namespace RelayServer

/- ============================================================
   JSON values, as produced by Python's `json.loads`.
   ============================================================ -/

/-- A JSON value as `json.loads` returns it: objects become dicts (modelled as
association lists, where a later duplicate key overwrites an earlier one),
numbers are modelled as integers (the handshake never uses fractions). -/
inductive Json where
  | null
  | bool (b : Bool)
  | num (n : Int)
  | str (s : String)
  | arr (elems : List Json)
  | obj (fields : List (String × Json))

/-- `dict.get k` on the dict built from `fields`: with duplicate keys the last
binding wins, as in a Python dict literal built left to right. -/
def lookupLast (fields : List (String × Json)) (k : String) : Option Json :=
  match fields with
  | [] => none
  | (k', v) :: rest =>
    match lookupLast rest k with
    | some r => some r
    | none => if k' = k then some v else none

/-- Python truthiness (`bool(x)`) of a JSON-decoded value: `None`, `False`,
`0`, `""`, `[]` and `{}` are falsy, everything else truthy. -/
def truthy : Json → Bool
  | .null => false
  | .bool b => b
  | .num n => n != 0
  | .str s => !s.isEmpty
  | .arr elems => !elems.isEmpty
  | .obj fields => !fields.isEmpty

/-- Truthiness of `dict.get`'s result: a missing key gives `None`, falsy. -/
def truthyOpt : Option Json → Bool
  | none => false
  | some j => truthy j

/-- `str(x)` as used by the f-string `f"Bearer {bearer_token}"`.  A `str`
passes through verbatim; other values print Python-style (string escaping
inside containers is elided; the handshake sends plain tokens). -/
def pyStr : Json → String
  | .str s => s
  | .null => "None"
  | .bool true => "True"
  | .bool false => "False"
  | .num n => toString n
  | .arr elems => "[" ++ String.intercalate ", " (pyStrList elems) ++ "]"
  | .obj fields => "\x7b" ++ String.intercalate ", " (pyStrFields fields) ++ "\x7d"
where
  /-- `repr` of each element of a list. -/
  pyStrList : List Json → List String
    | [] => []
    | x :: xs => pyRepr x :: pyStrList xs
  /-- `repr` of each `key: value` entry of a dict. -/
  pyStrFields : List (String × Json) → List String
    | [] => []
    | (k, v) :: fs => (squote ++ k ++ squote ++ ": " ++ pyRepr v) :: pyStrFields fs
  /-- `repr(x)`: like `str(x)` but strings are quoted. -/
  pyRepr : Json → String
    | .str s => squote ++ s ++ squote
    | .null => "None"
    | .bool true => "True"
    | .bool false => "False"
    | .num n => toString n
    | .arr elems => "[" ++ String.intercalate ", " (pyStrList elems) ++ "]"
    | .obj fields => "\x7b" ++ String.intercalate ", " (pyStrFields fields) ++ "\x7d"
  /-- A single-quote character, Python's default string delimiter. -/
  squote : String := String.singleton (Char.ofNat 39)

/- ============================================================
   urllib.parse: hostname extraction.

   The server calls `urlparse(service_url).hostname`.  The model
   follows CPython's `urlsplit` and the `hostname` property:
   * an initial `scheme:` is stripped when the text before the first
     colon is a nonempty run of scheme characters starting with a letter;
   * a netloc exists only when the remainder starts with `//`, and runs
     to the first `/`, `?` or `#`;
   * a netloc containing `[` without `]` (or vice versa) raises
     `ValueError("Invalid IPv6 URL")`;
   * the hostname is the netloc after the last `@`, either the part
     bracketed by `[` `]` or the part before the first `:`;
   * an empty hostname gives `None`; otherwise it is lowercased
     (a `%zone` suffix, for scoped IPv6, keeps its case).
   ============================================================ -/

/-- Characters allowed in a URL scheme (`scheme_chars`). -/
def schemeChar (c : Char) : Bool :=
  c.isAlpha || c.isDigit || c = '+' || c = '-' || c = '.'

/-- Strip a leading `scheme:` the way `urlsplit` does: only when a colon
exists, is not the first character, and everything before it is scheme
characters beginning with an ASCII letter. -/
def stripScheme (u : List Char) : List Char :=
  let pre := u.takeWhile (fun c => c ≠ ':')
  if pre.length = u.length then u
  else
    match pre with
    | [] => u
    | c :: _ => if c.isAlpha && pre.all schemeChar then u.drop (pre.length + 1) else u

/-- `_splitnetloc`: the netloc is present only after a leading `//` and
extends to the first `/`, `?` or `#`. -/
def splitNetloc (u : List Char) : Option (List Char) :=
  match u with
  | '/' :: '/' :: rest => some (rest.takeWhile (fun c => c ≠ '/' ∧ c ≠ '?' ∧ c ≠ '#'))
  | _ => none

/-- The netloc after its last `@` (`netloc.rpartition('@')[2]`). -/
def afterLastAt (netloc : List Char) : List Char :=
  ((netloc.reverse.takeWhile (fun c => c ≠ '@')).reverse)

/-- The host part of a netloc (`_hostinfo`): the text bracketed by `[` `]`
when a `[` is present, otherwise the text before the first `:`. -/
def hostFromNetloc (netloc : List Char) : List Char :=
  let hostinfo := afterLastAt netloc
  if hostinfo.contains '[' then
    ((hostinfo.dropWhile (fun c => c ≠ '[')).drop 1).takeWhile (fun c => c ≠ ']')
  else hostinfo.takeWhile (fun c => c ≠ ':')

/-- Lowercase a hostname the way the `hostname` property does: the part before
a `%` (scoped-IPv6 zone separator) is lowercased, the rest kept. -/
def lowerHostname (h : List Char) : List Char :=
  let before := h.takeWhile (fun c => c ≠ '%')
  before.map Char.toLower ++ h.drop before.length

/-- The raw (not yet lowercased) hostname of a URL, or a `ValueError`.
`.ok none` means `urlparse(url).hostname is None`. -/
def urlparseRawHost (url : String) : Except String (Option (List Char)) :=
  let u := stripScheme url.toList
  match splitNetloc u with
  | none => .ok none
  | some netloc =>
    if (netloc.contains '[' != netloc.contains ']') then .error "Invalid IPv6 URL"
    else
      let h := hostFromNetloc netloc
      if h.isEmpty then .ok none else .ok (some h)

/-- `urlparse(url).hostname`: the raw hostname, lowercased.  `.error` models
the `ValueError` that `urlsplit` raises on unbalanced brackets. -/
def urlparseHostname (url : String) : Except String (Option String) :=
  match urlparseRawHost url with
  | .error e => .error e
  | .ok none => .ok none
  | .ok (some h) => .ok (some (String.mk (lowerHostname h)))

/- ============================================================
   generate_access_token: credential resolution.
   ============================================================ -/

/-- The hard-coded Render secret probe path (`render_secret_default`). -/
def renderSecretDefault : String := "/etc/secrets/googlekey.json"

/-- The credentials object returned by `google.auth.default`, with the fields
the server touches: validity, the current token, and the outcome a
`creds.refresh(Request())` call would have (`.ok` carries the token the
credentials hold after a successful refresh, `.error` a raised exception). -/
structure Creds where
  valid : Bool
  token : String
  refreshResult : Except String String

/-- The fixed collaborators of `generate_access_token`: the module-level
`GOOGLE_APPLICATION_CREDENTIALS` constant (already `None` when the startup
environment variable was empty, per the module prologue), whether
`os.path.exists(render_secret_default)` holds, the `GCP_PROJECT_ID` constant,
and `google.auth.default` as a function of the credential-path environment
variable it reads (`.error` models a raised exception). -/
structure AuthWorld where
  moduleCredPath : Option String
  renderSecretExists : Bool
  gcpProjectId : String
  authDefault : Option String → Except String Creds

/-- The process-wide mutable state visible to the server: `os.environ`,
split into the `GOOGLE_APPLICATION_CREDENTIALS` entry and all other entries. -/
structure ProcState where
  envCredPath : Option String
  otherEnv : List (String × String)

/-- The `target_creds` path-detection logic: the configured path if any,
otherwise the Render secret path when that file exists, otherwise none. -/
def targetCreds (w : AuthWorld) : Option String :=
  match w.moduleCredPath with
  | some p => some p
  | none => if w.renderSecretExists then some renderSecretDefault else none

/-- The `os.environ['GOOGLE_APPLICATION_CREDENTIALS'] = target_creds` write:
performed exactly when a target path was detected. -/
def pathSetState (w : AuthWorld) (s : ProcState) : ProcState :=
  match targetCreds w with
  | some p => { s with envCredPath := some p }
  | none => s

/-- `generate_access_token()`: detect a credential path and write it into the
environment, call `google.auth.default`, refresh if invalid, and return the
token — or `none` when any step raised (the `except` returns `None`).  The
returned state is the process state after the call; note that the
environment write persists even when a later step fails. -/
def generate_access_token (w : AuthWorld) (s : ProcState) : Option String × ProcState :=
  let s' := pathSetState w s
  match w.authDefault s'.envCredPath with
  | .error _ => (none, s')
  | .ok creds =>
    if creds.valid then (some creds.token, s')
    else
      match creds.refreshResult with
      | .ok tok => (some tok, s')
      | .error _ => (none, s')

/-- Some step of credential discovery or refresh fails: `google.auth.default`
raises, or the resolved credentials are invalid and the refresh raises. -/
def credentialResolutionFails (w : AuthWorld) (s : ProcState) : Prop :=
  match w.authDefault (pathSetState w s).envCredPath with
  | .error _ => True
  | .ok creds => creds.valid = false ∧ ∃ e, creds.refreshResult = .error e

/- ============================================================
   websocket_handler: handshake validation and connection.
   ============================================================ -/

/-- A WebSocket message as returned by `ws_client.receive()`; only the
distinction text / non-text matters before the relay starts. -/
inductive WSMsg where
  | text (data : String)
  | binary (data : List Nat)
  | close
  | other
deriving Repr, DecidableEq

/-- The observable way a `websocket_handler` invocation ends, up to the
outbound connection attempt:
* `closedNoReason` — `ws_client.close(code=1008)` with no message
  (non-text first frame);
* `rejected r` — `ws_client.close(code=1008, message=r)`;
* `errorCaught` — an exception reached the handler's generic `except`
  (logged, no policy close, no outbound attempt);
* `connectAttempt url authz` — `session.ws_connect(url, ...)` was attempted
  with `Authorization` header `authz` (what the connection and relay do
  afterwards is modelled separately by `proxy_bidirectional`). -/
inductive HandlerOutcome where
  | closedNoReason
  | rejected (reason : String)
  | errorCaught
  | connectAttempt (url : String) (authz : String)
deriving Repr, DecidableEq

/-- Result of one `websocket_handler` run: its outcome, whether
`generate_access_token` was invoked, and the process state afterwards. -/
structure HandlerResult where
  outcome : HandlerOutcome
  authInvoked : Bool
  state : ProcState

/-- `websocket_handler`, from the first received frame to the outbound
connection attempt.  `jsonLoads` stands for `json.loads` (`.error` models a
raised `JSONDecodeError`).  Non-dict payloads, a non-string truthy
`service_url`, and a `ValueError` from `urlparse` all raise inside the `try`
and are caught by the generic `except` (giving `errorCaught`). -/
def websocket_handler (w : AuthWorld) (region : String)
    (jsonLoads : String → Except Unit Json)
    (firstMsg : WSMsg) (s : ProcState) : HandlerResult :=
  match firstMsg with
  | .text msgData =>
    match jsonLoads msgData with
    | .error _ => ⟨.errorCaught, false, s⟩
    | .ok (Json.obj fields) =>
      let bearer_token := lookupLast fields "bearer_token"
      let service_url := lookupLast fields "service_url"
      if !truthyOpt service_url then ⟨.rejected "Service URL missing", false, s⟩
      else
        match service_url with
        | some (Json.str url) =>
          let allowed_host := region ++ "-aiplatform.googleapis.com"
          (match urlparseHostname url with
           | .error _ => ⟨.errorCaught, false, s⟩
           | .ok h =>
             if h ≠ some allowed_host then ⟨.rejected "Unauthorized Service URL", false, s⟩
             else if truthyOpt bearer_token then
               ⟨.connectAttempt url ("Bearer " ++ pyStr ((bearer_token).getD Json.null)),
                false, s⟩
             else
               match generate_access_token w s with
               | (none, s') => ⟨.rejected "Auth failed", true, s'⟩
               | (some tok, s') => ⟨.connectAttempt url ("Bearer " ++ tok), true, s'⟩)
        | _ => ⟨.errorCaught, false, s⟩
    | .ok _ => ⟨.errorCaught, false, s⟩
  | _ => ⟨.closedNoReason, false, s⟩

/- ============================================================
   proxy_bidirectional: the relay engine.
   ============================================================ -/

/-- A frame a relay pump can receive from its `async for` loop: text, binary,
an explicit close frame, or any other frame kind (ignored by the loop body). -/
inductive RelayMsg where
  | text (s : String)
  | binary (b : List Nat)
  | close
  | other
deriving Repr, DecidableEq

/-- One pump direction of `proxy_bidirectional` applied to the frames its
side delivers, in order: text is re-sent as text, binary as binary, a close
frame breaks the loop, other frame kinds are skipped.  Returns the frames
sent to the opposite side and whether the loop exited by the `break`. -/
def pumpRun : List RelayMsg → List RelayMsg × Bool
  | [] => ([], false)
  | .text s :: rest =>
    let r := pumpRun rest
    (.text s :: r.1, r.2)
  | .binary b :: rest =>
    let r := pumpRun rest
    (.binary b :: r.1, r.2)
  | .close :: _ => ([], true)
  | .other :: rest => pumpRun rest

/-- What one side of the relay delivers to its pump: the frames handed to the
`async for` loop, and whether the underlying iterator ever ends (the
connection closes or errors out).  `ends = false` models a peer that stays
silent forever: the pump's next read then blocks indefinitely. -/
structure Source where
  msgs : List RelayMsg
  ends : Bool

/-- Whether a pump coroutine terminates on the given source: either its loop
body hit a close frame and broke, or the iterator itself ended. -/
def pumpTerminates (src : Source) : Bool :=
  (pumpRun src.msgs).2 || src.ends

/-- Result of `proxy_bidirectional` on the two sources. -/
structure ProxyResult where
  sentToUpstream : List RelayMsg
  sentToClient : List RelayMsg
  completes : Bool

/-- `proxy_bidirectional(ws_client, ws_server)`: the two pumps run
independently (neither direction inspects or waits on the other), and the
surrounding `asyncio.gather` completes exactly when BOTH pump coroutines have
terminated — `gather` does not cancel the still-running pump when the other
one finishes. -/
def proxy_bidirectional (client upstream : Source) : ProxyResult :=
  { sentToUpstream := (pumpRun client.msgs).1
    sentToClient := (pumpRun upstream.msgs).1
    completes := pumpTerminates client && pumpTerminates upstream }

/-- A data frame: text or binary. -/
def isData : RelayMsg → Bool
  | .text _ => true
  | .binary _ => true
  | .close => false
  | .other => false

/- ============================================================
   Concrete collaborators used to exercise the model.
   ============================================================ -/

/-- A `json.loads` that decodes every frame to the fixed value `j`. -/
def jlOf (j : Json) : String → Except Unit Json := fun _ => Except.ok j

/-- A `json.loads` on which decoding always raises (malformed payload). -/
def jlRaise : String → Except Unit Json := fun _ => Except.error ()

/-- A world where credential discovery always raises. -/
def wNoCreds : AuthWorld :=
  ⟨none, false, "", fun _ => Except.error "DefaultCredentialsError"⟩

/-- A world where discovery yields valid credentials carrying
`generated-token`. -/
def wFresh : AuthWorld :=
  ⟨none, false, "", fun _ => Except.ok ⟨true, "generated-token", Except.ok "generated-token"⟩⟩

/-- A world with no configured path but an existing Render secret file, where
discovery still raises. -/
def wRender : AuthWorld :=
  ⟨none, true, "", fun _ => Except.error "DefaultCredentialsError"⟩

/-- A starting process state: no credential path set, one unrelated entry. -/
def s0 : ProcState := ⟨none, [("PORT", "8080")]⟩

/-- A destination on the allowed host for region `us-central1`. -/
def allowedURL : String := "wss://us-central1-aiplatform.googleapis.com/ws"

/-- The allowed destination with the region part of the host upper-cased. -/
def caseURL : String := "wss://US-CENTRAL1-aiplatform.googleapis.com/ws"

/-- Handshake fields naming a disallowed host. -/
def evilFields : List (String × Json) :=
  [("service_url", Json.str "wss://evil.example.com/api")]

/-- Handshake fields with a client token and the case-varied allowed host. -/
def caseFields : List (String × Json) :=
  [("bearer_token", Json.str "client-token"), ("service_url", Json.str caseURL)]

/-- Handshake fields whose `bearer_token` is present but the empty string. -/
def emptyBearerFields : List (String × Json) :=
  [("bearer_token", Json.str ""), ("service_url", Json.str allowedURL)]

/-- Handshake fields with a non-empty client token and an allowed URL. -/
def goodBearerFields : List (String × Json) :=
  [("bearer_token", Json.str "client-token"), ("service_url", Json.str allowedURL)]

/-- Handshake fields with an allowed URL and no token. -/
def urlOnlyFields : List (String × Json) :=
  [("service_url", Json.str allowedURL)]

/-- Handshake fields whose URL has an unbalanced bracket in its authority. -/
def badBracketFields : List (String × Json) :=
  [("service_url", Json.str "https://[bad-host/api")]

/-- Handshake fields whose URL is a non-empty string with no hostname. -/
def noHostFields : List (String × Json) :=
  [("service_url", Json.str "not-a-url")]

/- ============================================================
   Helper lemmas: reducing `websocket_handler` along the main path.
   ============================================================ -/

/-- On a text first frame that decodes to an object with a truthy string
`service_url`, the handler is decided by the hostname check. -/
theorem websocket_handler_text_obj (w : AuthWorld) (region : String)
    (jsonLoads : String → Except Unit Json) (msgData : String)
    (fields : List (String × Json)) (url : String) (s : ProcState)
    (hparse : jsonLoads msgData = Except.ok (Json.obj fields))
    (hurl : lookupLast fields "service_url" = some (Json.str url))
    (hne : url ≠ "") :
    websocket_handler w region jsonLoads (WSMsg.text msgData) s
      = match urlparseHostname url with
        | .error _ => ⟨.errorCaught, false, s⟩
        | .ok h =>
          if h ≠ some (region ++ "-aiplatform.googleapis.com") then
            ⟨.rejected "Unauthorized Service URL", false, s⟩
          else if truthyOpt (lookupLast fields "bearer_token") then
            ⟨.connectAttempt url
               ("Bearer " ++ pyStr ((lookupLast fields "bearer_token").getD Json.null)),
             false, s⟩
          else
            match generate_access_token w s with
            | (none, s') => ⟨.rejected "Auth failed", true, s'⟩
            | (some tok, s') => ⟨.connectAttempt url ("Bearer " ++ tok), true, s'⟩ := by
  have hemp : url.isEmpty = false := by
    cases hu : url.isEmpty
    · rfl
    · exact absurd ((String.isEmpty_iff url).mp hu) hne
  simp only [websocket_handler, hparse, hurl, truthyOpt, truthy, hemp,
    Bool.not_false, Bool.not_true, if_false, Bool.false_eq_true, ite_false]

/-- Specialization: the hostname extraction succeeded. -/
theorem websocket_handler_host_ok (w : AuthWorld) (region : String)
    (jsonLoads : String → Except Unit Json) (msgData : String)
    (fields : List (String × Json)) (url : String) (s : ProcState)
    (h : Option String)
    (hparse : jsonLoads msgData = Except.ok (Json.obj fields))
    (hurl : lookupLast fields "service_url" = some (Json.str url))
    (hne : url ≠ "")
    (hhost : urlparseHostname url = Except.ok h) :
    websocket_handler w region jsonLoads (WSMsg.text msgData) s
      = if h ≠ some (region ++ "-aiplatform.googleapis.com") then
          ⟨.rejected "Unauthorized Service URL", false, s⟩
        else if truthyOpt (lookupLast fields "bearer_token") then
          ⟨.connectAttempt url
             ("Bearer " ++ pyStr ((lookupLast fields "bearer_token").getD Json.null)),
           false, s⟩
        else
          match generate_access_token w s with
          | (none, s') => ⟨.rejected "Auth failed", true, s'⟩
          | (some tok, s') => ⟨.connectAttempt url ("Bearer " ++ tok), true, s'⟩ := by
  rw [websocket_handler_text_obj w region jsonLoads msgData fields url s hparse hurl hne,
    hhost]

/-- Specialization: the hostname extraction raised `ValueError`. -/
theorem websocket_handler_host_raise (w : AuthWorld) (region : String)
    (jsonLoads : String → Except Unit Json) (msgData : String)
    (fields : List (String × Json)) (url : String) (s : ProcState) (e : String)
    (hparse : jsonLoads msgData = Except.ok (Json.obj fields))
    (hurl : lookupLast fields "service_url" = some (Json.str url))
    (hne : url ≠ "")
    (hhost : urlparseHostname url = Except.error e) :
    websocket_handler w region jsonLoads (WSMsg.text msgData) s
      = ⟨.errorCaught, false, s⟩ := by
  rw [websocket_handler_text_obj w region jsonLoads msgData fields url s hparse hurl hne,
    hhost]

/- ============================================================
   C1: unauthorized host is rejected, no outbound attempt.
   ============================================================ -/

/-- Claim C1: for every handshake whose destination URL yields a hostname
different from the configured allowed host `<region>-aiplatform.googleapis.com`,
the session is rejected with reason "Unauthorized Service URL" and no outbound
connection to the upstream is attempted. -/
theorem c1_unauthorized_host_rejected_no_connect (w : AuthWorld) (region : String)
    (jsonLoads : String → Except Unit Json) (msgData : String)
    (fields : List (String × Json)) (url : String) (s : ProcState)
    (h : Option String)
    (hparse : jsonLoads msgData = Except.ok (Json.obj fields))
    (hurl : lookupLast fields "service_url" = some (Json.str url))
    (hne : url ≠ "")
    (hhost : urlparseHostname url = Except.ok h)
    (hmm : h ≠ some (region ++ "-aiplatform.googleapis.com")) :
    (websocket_handler w region jsonLoads (WSMsg.text msgData) s).outcome
        = HandlerOutcome.rejected "Unauthorized Service URL"
    ∧ ∀ u a, (websocket_handler w region jsonLoads (WSMsg.text msgData) s).outcome
        ≠ HandlerOutcome.connectAttempt u a := by
  have hred := websocket_handler_host_ok w region jsonLoads msgData fields url s h
    hparse hurl hne hhost
  rw [if_pos hmm] at hred
  rw [hred]
  exact ⟨rfl, fun u a hc => HandlerOutcome.noConfusion hc⟩

/-- Claim C1 witness: a handshake for `wss://evil.example.com/api` under
region `us-central1`. -/
theorem c1_unauthorized_host_rejected_no_connect_witness :
    (websocket_handler wNoCreds "us-central1" (jlOf (Json.obj evilFields))
        (WSMsg.text "handshake") s0).outcome
      = HandlerOutcome.rejected "Unauthorized Service URL" :=
  (c1_unauthorized_host_rejected_no_connect wNoCreds "us-central1"
      (jlOf (Json.obj evilFields)) "handshake" evilFields "wss://evil.example.com/api" s0
      (some "evil.example.com") rfl rfl (by decide) rfl (by decide)).1

/- ============================================================
   C2: the comparison sees a lowercased hostname.
   ============================================================ -/

/-- Claim C2 counterexample: with region `us-central1`, the destination
`wss://US-CENTRAL1-aiplatform.googleapis.com/ws` carries a raw hostname that
differs from the allowed host only in letter case; the claim then demands
rejection, but the session is accepted and the outbound connection attempted,
because `urlparse(...).hostname` lowercases the hostname before the
comparison. -/
theorem c2_case_variant_host_accepted_counterexample :
    urlparseRawHost caseURL
        = Except.ok (some "US-CENTRAL1-aiplatform.googleapis.com".toList)
    ∧ ("US-CENTRAL1-aiplatform.googleapis.com" : String)
        ≠ "us-central1-aiplatform.googleapis.com"
    ∧ String.mk (lowerHostname "US-CENTRAL1-aiplatform.googleapis.com".toList)
        = "us-central1-aiplatform.googleapis.com"
    ∧ (websocket_handler wNoCreds "us-central1" (jlOf (Json.obj caseFields))
          (WSMsg.text "handshake") s0).outcome
        = HandlerOutcome.connectAttempt caseURL ("Bearer " ++ "client-token") :=
  ⟨rfl, by decide, rfl, rfl⟩

/-- Claim C2 (amended): the host check parses the destination URL and extracts
its hostname — which the parser lowercases — and rejects with "Unauthorized
Service URL" exactly when that lowercased hostname differs (by exact string
comparison) from the allowed host; hence URL hosts differing from the allowed
host only in letter case are accepted. -/
theorem c2_lowercased_hostname_equality_decides (w : AuthWorld) (region : String)
    (jsonLoads : String → Except Unit Json) (msgData : String)
    (fields : List (String × Json)) (url : String) (s : ProcState)
    (h : Option String)
    (hparse : jsonLoads msgData = Except.ok (Json.obj fields))
    (hurl : lookupLast fields "service_url" = some (Json.str url))
    (hne : url ≠ "")
    (hhost : urlparseHostname url = Except.ok h) :
    (websocket_handler w region jsonLoads (WSMsg.text msgData) s).outcome
        = HandlerOutcome.rejected "Unauthorized Service URL"
      ↔ h ≠ some (region ++ "-aiplatform.googleapis.com") := by
  have hred := websocket_handler_host_ok w region jsonLoads msgData fields url s h
    hparse hurl hne hhost
  by_cases hc : h = some (region ++ "-aiplatform.googleapis.com")
  · rw [if_neg (fun hx => hx hc)] at hred
    constructor
    · intro hout
      exfalso
      rw [hred] at hout
      by_cases htr : truthyOpt (lookupLast fields "bearer_token") = true
      · rw [if_pos htr] at hout
        exact HandlerOutcome.noConfusion hout
      · rw [if_neg htr] at hout
        rcases hgen : generate_access_token w s with ⟨tk, s'⟩
        rw [hgen] at hout
        cases tk
        · have hout' : HandlerOutcome.rejected "Auth failed"
              = HandlerOutcome.rejected "Unauthorized Service URL" := hout
          exact absurd hout' (by decide)
        · exact HandlerOutcome.noConfusion hout
    · intro hmm2
      exact absurd hc hmm2
  · rw [if_pos hc] at hred
    rw [hred]
    exact ⟨fun _ => hc, fun _ => rfl⟩

/-- Claim C2 (amended) witness: the case-varied allowed host is not rejected. -/
theorem c2_lowercased_hostname_equality_decides_witness :
    ¬ (websocket_handler wNoCreds "us-central1" (jlOf (Json.obj caseFields))
          (WSMsg.text "handshake") s0).outcome
        = HandlerOutcome.rejected "Unauthorized Service URL" :=
  fun hout =>
    ((c2_lowercased_hostname_equality_decides wNoCreds "us-central1"
        (jlOf (Json.obj caseFields)) "handshake" caseFields caseURL s0
        (some "us-central1-aiplatform.googleapis.com")
        rfl rfl (by decide) rfl).mp hout) (by decide)

/- ============================================================
   C7: missing service_url field.
   ============================================================ -/

/-- Claim C7: a handshake object with no destination-URL field is rejected
with reason "Service URL missing", and credential resolution is never
attempted for that session (and, a fortiori, no outbound attempt is made). -/
theorem c7_missing_service_url_rejected (w : AuthWorld) (region : String)
    (jsonLoads : String → Except Unit Json) (msgData : String)
    (fields : List (String × Json)) (s : ProcState)
    (hparse : jsonLoads msgData = Except.ok (Json.obj fields))
    (hmiss : lookupLast fields "service_url" = none) :
    websocket_handler w region jsonLoads (WSMsg.text msgData) s
      = ⟨HandlerOutcome.rejected "Service URL missing", false, s⟩ := by
  simp only [websocket_handler, hparse, hmiss, truthyOpt, Bool.not_false, if_true]

/-- Claim C7 witness: a handshake carrying only a `model` field. -/
theorem c7_missing_service_url_rejected_witness :
    websocket_handler wNoCreds "us-central1"
        (jlOf (Json.obj [("model", Json.str "gemini-live")]))
        (WSMsg.text "handshake") s0
      = ⟨HandlerOutcome.rejected "Service URL missing", false, s0⟩ :=
  c7_missing_service_url_rejected wNoCreds "us-central1"
    (jlOf (Json.obj [("model", Json.str "gemini-live")])) "handshake"
    [("model", Json.str "gemini-live")] s0 rfl rfl

/- ============================================================
   C5: client-supplied bearer token.
   ============================================================ -/

/-- Claim C5 counterexample: a handshake that includes a `bearer_token` field
holding the empty string.  The claim demands that the credential provider is
never invoked for any handshake including the field, but `if not bearer_token`
tests Python truthiness, so the provider IS invoked and its token — not the
client's — is forwarded. -/
theorem c5_falsy_bearer_invokes_provider_counterexample :
    lookupLast emptyBearerFields "bearer_token" = some (Json.str "")
    ∧ (websocket_handler wFresh "us-central1" (jlOf (Json.obj emptyBearerFields))
          (WSMsg.text "handshake") s0).authInvoked = true
    ∧ (websocket_handler wFresh "us-central1" (jlOf (Json.obj emptyBearerFields))
          (WSMsg.text "handshake") s0).outcome
        = HandlerOutcome.connectAttempt allowedURL ("Bearer " ++ "generated-token") :=
  ⟨rfl, rfl, rfl⟩

/-- Claim C5 (amended): for every handshake whose `bearer_token` field holds a
truthy value — in particular any non-empty string — `generate_access_token`
is never invoked and the client's token is forwarded verbatim to the outbound
connection as `Bearer <token>`; a falsy `bearer_token` (e.g. the empty string)
does not bypass the provider. -/
theorem c5_truthy_bearer_forwarded_verbatim (w : AuthWorld) (region : String)
    (jsonLoads : String → Except Unit Json) (msgData : String)
    (fields : List (String × Json)) (url : String) (tok : String) (s : ProcState)
    (hparse : jsonLoads msgData = Except.ok (Json.obj fields))
    (hurl : lookupLast fields "service_url" = some (Json.str url))
    (hne : url ≠ "")
    (hb : lookupLast fields "bearer_token" = some (Json.str tok))
    (htok : tok ≠ "")
    (hhost : urlparseHostname url
        = Except.ok (some (region ++ "-aiplatform.googleapis.com"))) :
    websocket_handler w region jsonLoads (WSMsg.text msgData) s
      = ⟨HandlerOutcome.connectAttempt url ("Bearer " ++ tok), false, s⟩ := by
  have hred := websocket_handler_host_ok w region jsonLoads msgData fields url s
    (some (region ++ "-aiplatform.googleapis.com")) hparse hurl hne hhost
  rw [if_neg (fun hx => hx rfl)] at hred
  have hemp : tok.isEmpty = false := by
    cases hu : tok.isEmpty
    · rfl
    · exact absurd ((String.isEmpty_iff tok).mp hu) htok
  have htr : truthyOpt (lookupLast fields "bearer_token") = true := by
    rw [hb]
    simp [truthyOpt, truthy, hemp]
  rw [if_pos htr, hb] at hred
  simpa only [Option.getD_some, pyStr] using hred

/-- Claim C5 (amended) witness: token `client-token` to the allowed URL. -/
theorem c5_truthy_bearer_forwarded_verbatim_witness :
    websocket_handler wNoCreds "us-central1" (jlOf (Json.obj goodBearerFields))
        (WSMsg.text "handshake") s0
      = ⟨HandlerOutcome.connectAttempt allowedURL ("Bearer " ++ "client-token"),
         false, s0⟩ :=
  c5_truthy_bearer_forwarded_verbatim wNoCreds "us-central1"
    (jlOf (Json.obj goodBearerFields)) "handshake" goodBearerFields allowedURL
    "client-token" s0 rfl rfl (by decide) rfl (by decide) rfl

/- ============================================================
   C6: credential resolution failure.
   ============================================================ -/

/-- Claim C6: when credential resolution is invoked (no truthy client token)
and any step of discovery or refresh fails, `generate_access_token` returns no
token at all (never a partial or fallback one), the session is rejected with
reason "Auth failed", and no outbound connection attempt is made. -/
theorem c6_auth_failure_rejected_no_connect (w : AuthWorld) (region : String)
    (jsonLoads : String → Except Unit Json) (msgData : String)
    (fields : List (String × Json)) (url : String) (s : ProcState)
    (hparse : jsonLoads msgData = Except.ok (Json.obj fields))
    (hurl : lookupLast fields "service_url" = some (Json.str url))
    (hne : url ≠ "")
    (hb : truthyOpt (lookupLast fields "bearer_token") = false)
    (hhost : urlparseHostname url
        = Except.ok (some (region ++ "-aiplatform.googleapis.com")))
    (hfail : credentialResolutionFails w s) :
    (generate_access_token w s).1 = none
    ∧ (websocket_handler w region jsonLoads (WSMsg.text msgData) s).outcome
        = HandlerOutcome.rejected "Auth failed"
    ∧ (websocket_handler w region jsonLoads (WSMsg.text msgData) s).authInvoked = true
    ∧ ∀ u a, (websocket_handler w region jsonLoads (WSMsg.text msgData) s).outcome
        ≠ HandlerOutcome.connectAttempt u a := by
  have hnone : (generate_access_token w s).1 = none := by
    unfold credentialResolutionFails at hfail
    rcases hd : w.authDefault (pathSetState w s).envCredPath with e | creds
    · simp [generate_access_token, hd]
    · rw [hd] at hfail
      obtain ⟨hv, e, hr⟩ := hfail
      simp [generate_access_token, hd, hv, hr]
  have hred := websocket_handler_host_ok w region jsonLoads msgData fields url s
    (some (region ++ "-aiplatform.googleapis.com")) hparse hurl hne hhost
  rw [if_neg (fun hx => hx rfl)] at hred
  rw [hb] at hred
  rw [if_neg (fun hx => Bool.noConfusion hx)] at hred
  rcases hgen : generate_access_token w s with ⟨tk, s'⟩
  have htk : tk = none := by
    have h1 := hnone
    rw [hgen] at h1
    exact h1
  subst htk
  rw [hgen] at hred
  rw [hred]
  exact ⟨rfl, rfl, rfl, fun u a hc => HandlerOutcome.noConfusion hc⟩

/-- Claim C6 witness: no client token, discovery raises. -/
theorem c6_auth_failure_rejected_no_connect_witness :
    (websocket_handler wNoCreds "us-central1" (jlOf (Json.obj urlOnlyFields))
        (WSMsg.text "handshake") s0).outcome
      = HandlerOutcome.rejected "Auth failed" :=
  (c6_auth_failure_rejected_no_connect wNoCreds "us-central1"
      (jlOf (Json.obj urlOnlyFields)) "handshake" urlOnlyFields allowedURL s0
      rfl rfl (by decide) rfl rfl trivial).2.1

/- ============================================================
   C8: non-text first frame / malformed payload.
   ============================================================ -/

/-- Claim C8 counterexample: a text first frame whose payload fails to decode.
The claim demands a close with a policy-violation status and one of the
defined rejection reasons, but `json.loads` raises inside the `try`, the
generic `except` catches it, and the session ends with no policy close at
all (the handler only logs and returns). -/
theorem c8_malformed_payload_counterexample :
    websocket_handler wNoCreds "us-central1" jlRaise (WSMsg.text "not json") s0
      = ⟨HandlerOutcome.errorCaught, false, s0⟩
    ∧ (websocket_handler wNoCreds "us-central1" jlRaise (WSMsg.text "not json") s0).outcome
        ≠ HandlerOutcome.rejected "Service URL missing"
    ∧ (websocket_handler wNoCreds "us-central1" jlRaise (WSMsg.text "not json") s0).outcome
        ≠ HandlerOutcome.rejected "Unauthorized Service URL"
    ∧ (websocket_handler wNoCreds "us-central1" jlRaise (WSMsg.text "not json") s0).outcome
        ≠ HandlerOutcome.rejected "Auth failed"
    ∧ (websocket_handler wNoCreds "us-central1" jlRaise (WSMsg.text "not json") s0).outcome
        ≠ HandlerOutcome.closedNoReason :=
  ⟨rfl, by decide, by decide, by decide, by decide⟩

/-- Claim C8 (amended): a non-text first frame is closed with the
policy-violation code 1008 but an empty reason (none of the defined
rejection reasons); a text first frame with a malformed payload raises inside
the handler's `try` and the session ends through the generic exception
handler with no policy-violation close at all.  In both cases no further
processing occurs: no credential resolution and no outbound attempt. -/
theorem c8_nontext_or_malformed_no_processing (w : AuthWorld) (region : String)
    (jsonLoads : String → Except Unit Json) (s : ProcState) :
    (∀ msg : WSMsg, (∀ d, msg ≠ WSMsg.text d) →
        websocket_handler w region jsonLoads msg s
          = ⟨HandlerOutcome.closedNoReason, false, s⟩)
    ∧ (∀ d, jsonLoads d = Except.error () →
        websocket_handler w region jsonLoads (WSMsg.text d) s
          = ⟨HandlerOutcome.errorCaught, false, s⟩) := by
  constructor
  · intro msg hm
    cases msg with
    | text d => exact absurd rfl (hm d)
    | binary b => rfl
    | close => rfl
    | other => rfl
  · intro d hd
    simp only [websocket_handler, hd]

/-- Claim C8 (amended) witness: a binary first frame is closed reasonless. -/
theorem c8_nontext_or_malformed_no_processing_witness :
    websocket_handler wNoCreds "us-central1" (jlOf (Json.obj urlOnlyFields))
        (WSMsg.binary [0, 1]) s0
      = ⟨HandlerOutcome.closedNoReason, false, s0⟩ :=
  (c8_nontext_or_malformed_no_processing wNoCreds "us-central1"
      (jlOf (Json.obj urlOnlyFields)) s0).1
    (WSMsg.binary [0, 1]) (fun _ h => WSMsg.noConfusion h)

/- ============================================================
   C9: process-wide state and credential resolution.
   ============================================================ -/

/-- The final process state of `generate_access_token` is exactly the state
after the path-detection write: later failures do not roll it back. -/
theorem generate_access_token_state (w : AuthWorld) (s : ProcState) :
    (generate_access_token w s).2 = pathSetState w s := by
  simp only [generate_access_token]
  rcases hd : w.authDefault (pathSetState w s).envCredPath with e | creds
  · rfl
  · by_cases hv : creds.valid = true
    · simp [hv]
    · simp only [Bool.not_eq_true] at hv
      rcases hr : creds.refreshResult with e' | t <;> simp [hv, hr]

/-- The handler leaves the process state either untouched or equal to the
path-detection write of `generate_access_token`. -/
theorem websocket_handler_state (w : AuthWorld) (region : String)
    (jsonLoads : String → Except Unit Json) (msg : WSMsg) (s : ProcState) :
    (websocket_handler w region jsonLoads msg s).state = s
    ∨ (websocket_handler w region jsonLoads msg s).state = pathSetState w s := by
  unfold websocket_handler
  dsimp only
  split
  · split
    · exact Or.inl rfl
    · split
      · exact Or.inl rfl
      · split
        · split
          · exact Or.inl rfl
          · split
            · exact Or.inl rfl
            · split
              · exact Or.inl rfl
              · split
                · rename_i s' heq
                  right
                  have hst := generate_access_token_state w s
                  rw [heq] at hst
                  exact hst
                · rename_i tok s' heq
                  right
                  have hst := generate_access_token_state w s
                  rw [heq] at hst
                  exact hst
        · exact Or.inl rfl
    · exact Or.inl rfl
  · exact Or.inl rfl

/-- Claim C9 (amended): the only process-wide mutable state a session touches
is the `GOOGLE_APPLICATION_CREDENTIALS` environment entry: a handler run
leaves every other environment entry unchanged, and leaves the credential-path
entry either unchanged or overwritten with the detected credential path (the
configured path or the Render secret path) — so resolution does NOT always
leave the credential-path setting unchanged, but changes nothing else. -/
theorem c9_only_cred_path_env_mutated (w : AuthWorld) (region : String)
    (jsonLoads : String → Except Unit Json) (msg : WSMsg) (s : ProcState) :
    (websocket_handler w region jsonLoads msg s).state.otherEnv = s.otherEnv
    ∧ ((websocket_handler w region jsonLoads msg s).state.envCredPath = s.envCredPath
       ∨ (websocket_handler w region jsonLoads msg s).state.envCredPath = targetCreds w) := by
  rcases websocket_handler_state w region jsonLoads msg s with hst | hst <;> rw [hst]
  · exact ⟨rfl, Or.inl rfl⟩
  · unfold pathSetState
    rcases ht : targetCreds w with _ | p
    · exact ⟨rfl, Or.inl rfl⟩
    · exact ⟨rfl, Or.inr rfl⟩

/-- Claim C9 counterexample: with no configured credential path and an
existing Render secret file, a single credential resolution mutates
process-wide configuration — the credential-path environment entry goes from
unset to the Render secret path and stays so even though discovery then
fails. -/
theorem c9_cred_path_mutation_counterexample :
    s0.envCredPath = none
    ∧ (generate_access_token wRender s0).2.envCredPath
        = some "/etc/secrets/googlekey.json" :=
  ⟨rfl, rfl⟩

/- ============================================================
   C10: totality of destination validation.
   ============================================================ -/

/-- Claim C10 counterexample: the non-empty `service_url`
`https://[bad-host/api` has no extractable hostname, and validation is not
total on it: `urlparse` raises `ValueError("Invalid IPv6 URL")`, so the
session ends through the generic exception handler instead of being rejected
with "Unauthorized Service URL". -/
theorem c10_urlparse_value_error_counterexample :
    urlparseHostname "https://[bad-host/api" = Except.error "Invalid IPv6 URL"
    ∧ websocket_handler wNoCreds "us-central1" (jlOf (Json.obj badBracketFields))
          (WSMsg.text "handshake") s0
        = ⟨HandlerOutcome.errorCaught, false, s0⟩
    ∧ (websocket_handler wNoCreds "us-central1" (jlOf (Json.obj badBracketFields))
          (WSMsg.text "handshake") s0).outcome
        ≠ HandlerOutcome.rejected "Unauthorized Service URL" :=
  ⟨rfl, rfl, by decide⟩

/-- Claim C10 (amended): for every truthy `service_url` string on which
`urlparse` yields no hostname, the comparison against the allowed host fails
and the session is rejected with "Unauthorized Service URL"; but validation is
not total: when the URL's authority has unbalanced square brackets, `urlparse`
raises `ValueError`, the session-level `except` catches it, and the session
ends without a policy close — in either case with no credential resolution
and no outbound attempt. -/
theorem c10_hostname_extraction_outcomes (w : AuthWorld) (region : String)
    (jsonLoads : String → Except Unit Json) (msgData : String)
    (fields : List (String × Json)) (url : String) (s : ProcState)
    (hparse : jsonLoads msgData = Except.ok (Json.obj fields))
    (hurl : lookupLast fields "service_url" = some (Json.str url))
    (hne : url ≠ "") :
    (urlparseHostname url = Except.ok none →
      websocket_handler w region jsonLoads (WSMsg.text msgData) s
        = ⟨HandlerOutcome.rejected "Unauthorized Service URL", false, s⟩)
    ∧ (∀ e, urlparseHostname url = Except.error e →
      websocket_handler w region jsonLoads (WSMsg.text msgData) s
        = ⟨HandlerOutcome.errorCaught, false, s⟩) := by
  constructor
  · intro hh
    have hred := websocket_handler_host_ok w region jsonLoads msgData fields url s
      none hparse hurl hne hh
    rw [if_pos (fun hx => Option.noConfusion hx)] at hred
    exact hred
  · intro e hh
    exact websocket_handler_host_raise w region jsonLoads msgData fields url s e
      hparse hurl hne hh

/-- Claim C10 (amended) witness: `not-a-url` yields no hostname and is
rejected with "Unauthorized Service URL". -/
theorem c10_hostname_extraction_outcomes_witness :
    websocket_handler wNoCreds "us-central1" (jlOf (Json.obj noHostFields))
        (WSMsg.text "handshake") s0
      = ⟨HandlerOutcome.rejected "Unauthorized Service URL", false, s0⟩ :=
  (c10_hostname_extraction_outcomes wNoCreds "us-central1"
      (jlOf (Json.obj noHostFields)) "handshake" noHostFields "not-a-url" s0
      rfl rfl (by decide)).1 rfl

/- ============================================================
   C4: order- and type-preserving forwarding.
   ============================================================ -/

/-- A pump that receives data frames followed by a close frame forwards
exactly the data frames, in order, and exits through the close `break`. -/
theorem pumpRun_data_then_close (ms : List RelayMsg)
    (h : ∀ m ∈ ms, isData m = true) :
    pumpRun (ms ++ [RelayMsg.close]) = (ms, true) := by
  induction ms with
  | nil => rfl
  | cons m rest ih =>
    have hm := h m (List.mem_cons_self m rest)
    have hrest : ∀ x ∈ rest, isData x = true :=
      fun x hx => h x (List.mem_cons_of_mem m hx)
    cases m with
    | text t => simp [pumpRun, ih hrest]
    | binary b => simp [pumpRun, ih hrest]
    | close => exact Bool.noConfusion hm
    | other => exact Bool.noConfusion hm

/-- Claim C4: for any sequences of text/binary messages each side delivers
before closing, the relay sends the opposite side exactly those messages, in
the same order, with frame type preserved (text as text, binary as binary),
with no coalescing, reordering or payload modification, and each pump
terminates on its close frame, so the relay run completes. -/
theorem c4_relay_forwards_in_order_preserving_type (ms ns : List RelayMsg)
    (hms : ∀ m ∈ ms, isData m = true) (hns : ∀ m ∈ ns, isData m = true) :
    proxy_bidirectional ⟨ms ++ [RelayMsg.close], true⟩ ⟨ns ++ [RelayMsg.close], true⟩
      = ⟨ms, ns, true⟩ := by
  unfold proxy_bidirectional pumpTerminates
  rw [pumpRun_data_then_close ms hms, pumpRun_data_then_close ns hns]
  rfl

/-- Claim C4 witness: two text frames and a binary frame from the client, a
binary answer from upstream. -/
theorem c4_relay_forwards_in_order_preserving_type_witness :
    proxy_bidirectional
        ⟨[RelayMsg.text "setup", RelayMsg.binary [1, 2, 3], RelayMsg.text "end"]
           ++ [RelayMsg.close], true⟩
        ⟨[RelayMsg.binary [9, 9]] ++ [RelayMsg.close], true⟩
      = ⟨[RelayMsg.text "setup", RelayMsg.binary [1, 2, 3], RelayMsg.text "end"],
         [RelayMsg.binary [9, 9]], true⟩ :=
  c4_relay_forwards_in_order_preserving_type
    [RelayMsg.text "setup", RelayMsg.binary [1, 2, 3], RelayMsg.text "end"]
    [RelayMsg.binary [9, 9]] (by decide) (by decide)

/- ============================================================
   C3: termination coupling.
   ============================================================ -/

/-- Claim C3 counterexample: the upstream source ends (its pump terminates)
while the client stays silent and never closes; the relay run does not
complete — `asyncio.gather` keeps awaiting the client pump, which stays
blocked on a read, so the client side observes no termination.  The claim's
required termination coupling therefore fails on the code. -/
theorem c3_no_termination_coupling_counterexample :
    pumpTerminates ⟨[], true⟩ = true
    ∧ pumpTerminates ⟨[], false⟩ = false
    ∧ (proxy_bidirectional ⟨[], false⟩ ⟨[], true⟩).completes = false :=
  ⟨rfl, rfl, rfl⟩

/-- Claim C3 (amended): termination of one pump does not terminate the other
— the engine awaits `asyncio.gather` without cancelling the surviving pump —
so the relay run completes exactly when each direction terminates on its own:
its loop broke on a close frame, or its connection ended.  After the upstream
closes, the client side observes termination only once the client's own
direction ends too. -/
theorem c3_relay_completes_iff_both_pumps_end (client upstream : Source) :
    (proxy_bidirectional client upstream).completes = true
      ↔ ((pumpRun client.msgs).2 = true ∨ client.ends = true)
        ∧ ((pumpRun upstream.msgs).2 = true ∨ upstream.ends = true) := by
  simp [proxy_bidirectional, pumpTerminates, Bool.and_eq_true, Bool.or_eq_true]

end RelayServer
